import Mathlib

set_option maxHeartbeats 1000000

namespace Mugshot

/-! Shallow embedding of the card renderer in `src/index.ts` (repository
Kami516/mugshot).  Numbers are modelled as rationals, the canvas 2d context
as an explicit state record, and the render as the list of context commands
issued by `generateTradingCard`, in source order.  Asset loading is modelled
by an environment assigning each asset file one of three states: the file
does not exist, the file exists but `loadImage` throws, or the file loads as
a bitmap of known dimensions.  Text measurement is an oracle parameter
`measure : font → text → width`, deterministic as the spec requires. -/

/-- Chain selector: the bot accepts exactly 'SOL' and 'ETH'
(src/index.ts line 116). -/
inductive Chain
  | SOL
  | ETH
deriving DecidableEq

/-- Dimensions of a loaded bitmap, as exposed by `loadImage`
(`tokenLogo.width`, `tokenLogo.height`). -/
structure Bitmap where
  width : ℚ
  height : ℚ
deriving DecidableEq

/-- State of one asset file for a render call: `missing` means
`fs.existsSync` is false, `throws` means the file exists but `loadImage`
raises, `present` means it loads as the given bitmap. -/
inductive AssetState
  | missing
  | throws
  | present (bmp : Bitmap)
deriving DecidableEq

/-- Asset files consulted by `generateTradingCard`: `bg.png`, `sol.png`,
`eth.png`, `stroke.png` (src/index.ts lines 181, 253, 308, 339). -/
structure AssetEnv where
  background : AssetState
  logoSol : AssetState
  logoEth : AssetState
  stroke : AssetState

/-- The logo file looked up for the selected chain
(`${chain.toLowerCase()}.png`, src/index.ts lines 253 and 308). -/
def logoFor (chain : Chain) (env : AssetEnv) : AssetState :=
  match chain with
  | .SOL => env.logoSol
  | .ETH => env.logoEth

/-! Derived metrics, src/index.ts lines 168-177. -/

/-- Derived financial quantities computed at the top of
`generateTradingCard` (src/index.ts lines 168-177). -/
structure Metrics where
  profit : ℚ
  profitPercentage : ℚ
  isProfitable : Bool
  roi : ℚ
  initialUsd : ℚ
  finalUsd : ℚ
  profitUsd : ℚ

/-- Transcription of src/index.ts lines 168-177: `profit = finalAmount -
initialInvestment`, `profitPercentage = profit / initialInvestment`,
`isProfitable = profit >= 0`, `roi = finalAmount / initialInvestment`,
`initialUsd = initialInvestment * tokenPrice`, `finalUsd = finalAmount *
tokenPrice`, `profitUsd = finalUsd - initialUsd`. -/
def computeMetrics (initialInvestment finalAmount tokenPrice : ℚ) : Metrics :=
  let profit := finalAmount - initialInvestment
  let initialUsd := initialInvestment * tokenPrice
  let finalUsd := finalAmount * tokenPrice
  { profit := profit
    profitPercentage := profit / initialInvestment
    isProfitable := decide (profit ≥ 0)
    roi := finalAmount / initialInvestment
    initialUsd := initialUsd
    finalUsd := finalUsd
    profitUsd := finalUsd - initialUsd }

/-! Models of the JavaScript number-formatting primitives used by the
renderer: `Number.prototype.toFixed` and
`Number.prototype.toLocaleString('en-US', { minimumFractionDigits: 2,
maximumFractionDigits: 2 })`.  Both round half away from zero (ECMAScript
`toFixed` separates the sign and picks the larger candidate on a tie;
`Intl.NumberFormat` defaults to halfExpand). -/

/-- Character for one decimal digit. -/
def digitChar : ℕ → Char
  | 0 => '0'
  | 1 => '1'
  | 2 => '2'
  | 3 => '3'
  | 4 => '4'
  | 5 => '5'
  | 6 => '6'
  | 7 => '7'
  | 8 => '8'
  | _ => '9'

/-- Exactly `d` decimal digit characters of `m` (most significant first,
left-padded with zeros). -/
def natToDigitsPadded : ℕ → ℕ → List Char
  | 0, _ => []
  | d + 1, m => natToDigitsPadded d (m / 10) ++ [digitChar (m % 10)]

/-- Scale a nonnegative rational by `10 ^ d` and round half away from
zero (for nonnegative input, half up). -/
def jsRound (d : ℕ) (x : ℚ) : ℕ :=
  (Int.floor (x * 10 ^ d + 1 / 2)).toNat

/-- Model of JavaScript `q.toFixed(d)`: sign, then the rounded magnitude
with exactly `d` fractional digits. -/
def toFixed (d : ℕ) (q : ℚ) : String :=
  let m := jsRound d |q|
  (if q < 0 then "-" else "") ++ Nat.repr (m / 10 ^ d) ++
    (if d = 0 then "" else "." ++ String.mk (natToDigitsPadded d (m % 10 ^ d)))

/-- Helper for thousands grouping: walks the reversed digit list and puts a
comma after every third digit. -/
def groupAux : List Char → ℕ → List Char
  | [], _ => []
  | c :: rest, k =>
    if k = 3 then ',' :: c :: groupAux rest 1 else c :: groupAux rest (k + 1)

/-- Insert `,` thousands separators into a digit list (en-US grouping). -/
def groupThousands (digits : List Char) : List Char :=
  (groupAux digits.reverse 0).reverse

/-- Model of JavaScript `q.toLocaleString('en-US', { minimumFractionDigits:
2, maximumFractionDigits: 2 })`: grouped integer part and exactly two
fractional digits. -/
def toLocaleEn2 (q : ℚ) : String :=
  let m := jsRound 2 |q|
  (if q < 0 then "-" else "") ++
    String.mk (groupThousands (Nat.repr (m / 100)).data) ++ "." ++
    String.mk (natToDigitsPadded 2 (m % 100))

/-! The canvas 2d context, modelled as commands plus an interpreter. -/

/-- One call on the canvas 2d context.  Setters mutate the context state;
`fillRect` / `strokeRect` / `fillText` / `drawImage` emit pixels. -/
inductive Cmd
  | setFillStyle (c : String)
  | setStrokeStyle (c : String)
  | setLineWidth (w : ℚ)
  | setFont (f : String)
  | setTextAlign (a : String)
  | setTextBaseline (b : String)
  | fillRect (x y w h : ℚ)
  | strokeRect (x y w h : ℚ)
  | fillText (s : String) (x y : ℚ)
  | drawImage (asset : String) (x y w h : ℚ)
deriving DecidableEq

/-- Mutable fields of the canvas 2d context that the renderer touches. -/
structure CtxState where
  fillStyle : String
  strokeStyle : String
  lineWidth : ℚ
  font : String
  textAlign : String
  textBaseline : String
deriving DecidableEq

/-- Initial canvas 2d context state (the HTML canvas defaults). -/
def initCtx : CtxState :=
  { fillStyle := "#000000"
    strokeStyle := "#000000"
    lineWidth := 1
    font := "10px sans-serif"
    textAlign := "start"
    textBaseline := "alphabetic" }

/-- A resolved draw event: a drawing command together with the context
state it was issued under. -/
inductive Event
  | text (s color font align baseline : String) (x y : ℚ)
  | rect (color : String) (x y w h : ℚ)
  | stroke (color : String) (lw x y w h : ℚ)
  | image (asset : String) (x y w h : ℚ)
deriving DecidableEq

/-- Effect of one command on the context state. -/
def applyCmd (st : CtxState) : Cmd → CtxState
  | .setFillStyle v => { st with fillStyle := v }
  | .setStrokeStyle v => { st with strokeStyle := v }
  | .setLineWidth v => { st with lineWidth := v }
  | .setFont v => { st with font := v }
  | .setTextAlign v => { st with textAlign := v }
  | .setTextBaseline v => { st with textBaseline := v }
  | .fillRect _ _ _ _ => st
  | .strokeRect _ _ _ _ => st
  | .fillText _ _ _ => st
  | .drawImage _ _ _ _ _ => st

/-- Events emitted by one command under a given context state. -/
def emit (st : CtxState) : Cmd → List Event
  | .fillRect x y w h => [.rect st.fillStyle x y w h]
  | .strokeRect x y w h => [.stroke st.strokeStyle st.lineWidth x y w h]
  | .fillText s x y => [.text s st.fillStyle st.font st.textAlign st.textBaseline x y]
  | .drawImage a x y w h => [.image a x y w h]
  | _ => []

/-- Interpret a command list from a context state into resolved events. -/
def interp : CtxState → List Cmd → List Event
  | _, [] => []
  | st, c :: cs => emit st c ++ interp (applyCmd st c) cs

/-- Context state after running a command list. -/
def stateAfter : CtxState → List Cmd → CtxState
  | st, [] => st
  | st, c :: cs => stateAfter (applyCmd st c) cs

/-! The render script, block by block, in source order. -/

/-- Background step, src/index.ts lines 180-199: draw `bg.png` scaled to
the full canvas; if the file is absent, or `loadImage` throws, fill the
canvas with solid black. -/
def bgCmds (bg : AssetState) : List Cmd :=
  match bg with
  | .present _ => [.drawImage "bg" 0 0 1600 1071]
  | .missing => [.setFillStyle "#000000", .fillRect 0 0 1600 1071]
  | .throws => [.setFillStyle "#000000", .fillRect 0 0 1600 1071]

/-- MUGSHOT box, ticker headline, PROFIT/LOSS header and the signed profit
USD line, src/index.ts lines 202-232. -/
def headerCmds (ticker : String) (isProfitable : Bool) (profitUsd : ℚ) : List Cmd :=
  [ .setStrokeStyle "#FFFFFF", .setLineWidth 5, .strokeRect 1192 848 321 125,
    .setFillStyle "#000000", .fillRect 1194 850 317 121,
    .setFillStyle "#FFFFFF", .setFont "bold 70px Impact", .setTextAlign "center",
    .fillText "MUGSHOT" 1352 937,
    .setFillStyle "#FFFFFF", .setFont "bold 132px AntonSC",
    .setTextAlign "left", .setTextBaseline "top",
    .fillText ("$" ++ ticker) 112 63,
    .setFillStyle "#FFFFFF", .setFont "36px GeistMono",
    .setTextAlign "left", .setTextBaseline "top",
    .fillText "PROFIT/LOSS" 125 299,
    .setFillStyle (if isProfitable then "#00FF00" else "#FF0000"),
    .setFont "bold 152px Impact", .setTextAlign "left", .setTextBaseline "top",
    .fillText ((if isProfitable then "+$" else "-$") ++ toLocaleEn2 |profitUsd|) 61 346 ]

/-- Chain-dependent logo draw, src/index.ts lines 256-263 (and the
identical blocks at 328-335, 363-370, 389-396, 416-423): ETH is drawn at
fixed width 39 with aspect-preserved height, the other chain as a square
with side equal to the slot's text height. -/
def logoDraw (chain : Chain) (bmp : Bitmap) (x y squareSide : ℚ) : List Cmd :=
  match chain with
  | .ETH => [.drawImage "logo" x y 39 (39 * (bmp.height / bmp.width))]
  | .SOL => [.drawImage "logo" x y squareSide squareSide]

/-- Profit-quantity row and its chain logo, src/index.ts lines 235-267.
When the logo file is missing nothing is drawn in its place; when
`loadImage` throws the catch only logs, so nothing is drawn either. -/
def percRowCmds (profit : ℚ) (chain : Chain) (logo : AssetState)
    (measure : String → String → ℚ) : List Cmd :=
  let percentageText := toFixed 3 profit
  let percentageTextWidth := measure "bold 74px Impact" percentageText
  let textHeight : ℚ := 74 * 0.75
  let tokenLogoX := 119 + percentageTextWidth + 20
  let tokenLogoY := 577 - textHeight / 2
  [ .setFillStyle "#FFFFFF", .setFont "bold 74px Impact",
    .setTextAlign "left", .setTextBaseline "middle",
    .fillText percentageText 119 577 ] ++
  (match logo with
   | .present bmp => logoDraw chain bmp tokenLogoX tokenLogoY textHeight
   | .missing => []
   | .throws => [])

/-- Investment panel rectangles, src/index.ts lines 270-284. -/
def investBoxCmds : List Cmd :=
  [ .setStrokeStyle "#818181", .setLineWidth 5, .strokeRect 70 736 671 261,
    .setFillStyle "#202020", .fillRect 73 738 665 257,
    .setStrokeStyle "#919191", .setLineWidth 5, .strokeRect 70 998 671 12,
    .setFillStyle "#919191", .fillRect 70 998 671 12 ]

/-- INVESTED / SOLD labels row, src/index.ts lines 287-299. -/
def investLabelCmds (roi : ℚ) (measure : String → String → ℚ) : List Cmd :=
  let soldText := "SOLD " ++ toFixed 2 roi
  let soldTextWidth := measure "28px GeistMono" soldText
  [ .setFillStyle "#FFFFFF", .setFont "28px GeistMono",
    .setTextAlign "left", .setTextBaseline "top",
    .fillText "INVESTED" 130 780,
    .fillText soldText 440 780,
    .setFont "bold 28px GeistMono",
    .fillText "X ROI" (440 + soldTextWidth) 780 ]

/-- Investment amounts block, src/index.ts lines 302-454.  With the chain
logo loaded: invested amount text, first logo, then the separator
sub-block (bitmap centered in the computed gap when `stroke.png` loads;
a plain `>` at (352, 835) when it is missing or throws — with second-logo
base x 440 in the missing branch but 448 in the catch branch).  With the
chain logo missing or throwing: placeholder glyphs at (272, 835) and
(544, 835), the `>` glyph, and the final amount, with no invested-amount
text and no bitmaps. -/
def investBlockCmds (initialInvestment finalAmount : ℚ) (isProfitable : Bool)
    (chain : Chain) (logo strokeAsset : AssetState)
    (measure : String → String → ℚ) : List Cmd :=
  [ .setFont "bold 77px Impact", .setTextAlign "left", .setTextBaseline "top" ] ++
  (match logo with
   | .present tokenLogo =>
     let investmentText := toFixed 1 initialInvestment
     let investmentTextWidth := measure "bold 77px Impact" investmentText
     let textHeight : ℚ := 77 * 0.75
     let tokenLogoX := 130 + investmentTextWidth + 19
     let tokenLogoY := 835 + textHeight * 0.35
     let finalAmountText := toFixed 1 finalAmount
     let finalAmountWidth := measure "bold 77px Impact" finalAmountText
     [.fillText investmentText 130 835] ++
     logoDraw chain tokenLogo tokenLogoX tokenLogoY textHeight ++
     (match strokeAsset with
      | .present _ =>
        let availableSpace := 440 - (tokenLogoX + textHeight)
        let strokeX := tokenLogoX + textHeight + availableSpace / 2 - 22 / 2
        let strokeY := 850 + textHeight / 2 - 35 / 2
        [ .drawImage "stroke" strokeX strokeY 22 35,
          .setFillStyle (if isProfitable then "#00FF00" else "#FF0000"),
          .fillText finalAmountText 440 835 ] ++
        logoDraw chain tokenLogo (440 + finalAmountWidth + 19) tokenLogoY textHeight
      | .missing =>
        [ .fillText ">" 352 835,
          .setFillStyle (if isProfitable then "#00FF00" else "#FF0000"),
          .fillText finalAmountText 440 835 ] ++
        logoDraw chain tokenLogo (440 + finalAmountWidth + 19) tokenLogoY textHeight
      | .throws =>
        [ .fillText ">" 352 835,
          .setFillStyle (if isProfitable then "#00FF00" else "#FF0000"),
          .fillText finalAmountText 440 835 ] ++
        logoDraw chain tokenLogo (448 + finalAmountWidth + 19) tokenLogoY textHeight)
   | .missing =>
     [ .fillText "≡" 272 835, .fillText ">" 352 835,
       .setFillStyle (if isProfitable then "#00FF00" else "#FF0000"),
       .fillText (toFixed 1 finalAmount) 440 835,
       .fillText "≡" 544 835 ]
   | .throws =>
     [ .fillText "≡" 272 835, .fillText ">" 352 835,
       .setFillStyle (if isProfitable then "#00FF00" else "#FF0000"),
       .fillText (toFixed 1 finalAmount) 440 835,
       .fillText "≡" 544 835 ])

/-- USD equivalents row, src/index.ts lines 457-466. -/
def usdRowCmds (initialUsd finalUsd : ℚ) : List Cmd :=
  [ .setFont "bold 26px GeistMono", .setTextAlign "left", .setTextBaseline "top",
    .setFillStyle "#818181",
    .fillText ("$" ++ toLocaleEn2 initialUsd) 130 927,
    .setFillStyle "#818181", .setTextAlign "left", .setTextBaseline "top",
    .fillText ("$" ++ toLocaleEn2 finalUsd) 440 927 ]

/-- Result of a render call: the fixed canvas dimensions and the full
command script, standing for the encoded buffer of `canvas.toBuffer()`. -/
structure RenderResult where
  width : ℕ
  height : ℕ
  cmds : List Cmd
deriving DecidableEq

/-- Everything `generateTradingCard` draws after the background, in source
order (src/index.ts lines 202-466).  Split out so that the independence of
the later steps from the background asset is visible in the type. -/
def tailCmds (ticker : String) (initialInvestment finalAmount tokenPrice : ℚ)
    (chain : Chain) (logo strokeAsset : AssetState)
    (measure : String → String → ℚ) : List Cmd :=
  let m := computeMetrics initialInvestment finalAmount tokenPrice
  headerCmds ticker m.isProfitable m.profitUsd ++
  percRowCmds m.profit chain logo measure ++
  investBoxCmds ++
  investLabelCmds m.roi measure ++
  investBlockCmds initialInvestment finalAmount m.isProfitable chain logo strokeAsset measure ++
  usdRowCmds m.initialUsd m.finalUsd

/-- Transcription of `generateTradingCard` (src/index.ts lines 155-470): a
1600 by 1071 canvas plus the ordered draw script. -/
def generateTradingCard (ticker : String)
    (initialInvestment finalAmount tokenPrice : ℚ) (chain : Chain)
    (env : AssetEnv) (measure : String → String → ℚ) : RenderResult :=
  { width := 1600
    height := 1071
    cmds :=
      bgCmds env.background ++
      tailCmds ticker initialInvestment finalAmount tokenPrice chain
        (logoFor chain env) env.stroke measure }

/-- Resolved event trace of a render call. -/
def renderEvents (ticker : String)
    (initialInvestment finalAmount tokenPrice : ℚ) (chain : Chain)
    (env : AssetEnv) (measure : String → String → ℚ) : List Event :=
  interp initCtx
    (generateTradingCard ticker initialInvestment finalAmount tokenPrice chain env measure).cmds

/-! Extractors over event traces, used to state the claims. -/

/-- Text events drawn at a given anchor, with their fill color. -/
def textEventsAt (evs : List Event) (x y : ℚ) : List (String × String) :=
  evs.filterMap fun e =>
    match e with
    | .text s color _ _ _ ex ey =>
      if ey = y then (if ex = x then some (s, color) else none) else none
    | _ => none

/-- Text strings drawn at a given anchor. -/
def textsAt (evs : List Event) (x y : ℚ) : List String :=
  (textEventsAt evs x y).map Prod.fst

/-- Placements (x, y, w, h) of every draw of the named image asset. -/
def imageEvents (evs : List Event) (name : String) : List (ℚ × ℚ × ℚ × ℚ) :=
  evs.filterMap fun e =>
    match e with
    | .image a x y w h => if a = name then some (x, y, w, h) else none
    | _ => none

/-- Anchors at which a given glyph string is drawn. -/
def glyphPositions (evs : List Event) (g : String) : List (ℚ × ℚ) :=
  evs.filterMap fun e =>
    match e with
    | .text s _ _ _ _ x y => if s = g then some (x, y) else none
    | _ => none

/-- Number of characters after the last `.` of a string (its displayed
fractional digits). -/
def decPlaces (s : String) : ℕ :=
  (s.data.reverse.takeWhile (fun c => c ≠ '.')).length

/-! Resolved event lists of each script block, and the trace decomposition
of a full render call. -/

/-- Events of the background step. -/
def evBg (bg : AssetState) : List Event :=
  match bg with
  | .present _ => [.image "bg" 0 0 1600 1071]
  | .missing => [.rect "#000000" 0 0 1600 1071]
  | .throws => [.rect "#000000" 0 0 1600 1071]

/-- Events of the header block (MUGSHOT box, ticker, PROFIT/LOSS header,
signed profit USD line). -/
def evHeader (ticker : String) (isProfitable : Bool) (profitUsd : ℚ) : List Event :=
  [ .stroke "#FFFFFF" 5 1192 848 321 125,
    .rect "#000000" 1194 850 317 121,
    .text "MUGSHOT" "#FFFFFF" "bold 70px Impact" "center" "alphabetic" 1352 937,
    .text ("$" ++ ticker) "#FFFFFF" "bold 132px AntonSC" "left" "top" 112 63,
    .text "PROFIT/LOSS" "#FFFFFF" "36px GeistMono" "left" "top" 125 299,
    .text ((if isProfitable then "+$" else "-$") ++ toLocaleEn2 |profitUsd|)
      (if isProfitable then "#00FF00" else "#FF0000")
      "bold 152px Impact" "left" "top" 61 346 ]

/-- Event of one chain-dependent logo draw. -/
def evLogo (chain : Chain) (bmp : Bitmap) (x y squareSide : ℚ) : List Event :=
  match chain with
  | .ETH => [.image "logo" x y 39 (39 * (bmp.height / bmp.width))]
  | .SOL => [.image "logo" x y squareSide squareSide]

/-- Events of the profit-quantity row and its logo slot. -/
def evPerc (profit : ℚ) (chain : Chain) (logo : AssetState)
    (measure : String → String → ℚ) : List Event :=
  [.text (toFixed 3 profit) "#FFFFFF" "bold 74px Impact" "left" "middle" 119 577] ++
  (match logo with
   | .present bmp =>
     evLogo chain bmp (119 + measure "bold 74px Impact" (toFixed 3 profit) + 20)
       (577 - 74 * 0.75 / 2) (74 * 0.75)
   | .missing => []
   | .throws => [])

/-- Events of the investment panel rectangles. -/
def evBox : List Event :=
  [ .stroke "#818181" 5 70 736 671 261,
    .rect "#202020" 73 738 665 257,
    .stroke "#919191" 5 70 998 671 12,
    .rect "#919191" 70 998 671 12 ]

/-- Events of the INVESTED / SOLD labels row. -/
def evLabels (roi : ℚ) (measure : String → String → ℚ) : List Event :=
  [ .text "INVESTED" "#FFFFFF" "28px GeistMono" "left" "top" 130 780,
    .text ("SOLD " ++ toFixed 2 roi) "#FFFFFF" "28px GeistMono" "left" "top" 440 780,
    .text "X ROI" "#FFFFFF" "bold 28px GeistMono" "left" "top"
      (440 + measure "28px GeistMono" ("SOLD " ++ toFixed 2 roi)) 780 ]

/-- Events of the investment amounts block.  `inColor` is the fill style in
effect when the block starts (always `#FFFFFF` in the actual script). -/
def evInvest (inColor : String) (initialInvestment finalAmount : ℚ)
    (isProfitable : Bool) (chain : Chain) (logo strokeAsset : AssetState)
    (measure : String → String → ℚ) : List Event :=
  match logo with
  | .present tokenLogo =>
    let investmentText := toFixed 1 initialInvestment
    let investmentTextWidth := measure "bold 77px Impact" investmentText
    let textHeight : ℚ := 77 * 0.75
    let tokenLogoX := 130 + investmentTextWidth + 19
    let tokenLogoY := 835 + textHeight * 0.35
    let finalAmountText := toFixed 1 finalAmount
    let finalAmountWidth := measure "bold 77px Impact" finalAmountText
    [.text investmentText inColor "bold 77px Impact" "left" "top" 130 835] ++
    evLogo chain tokenLogo tokenLogoX tokenLogoY textHeight ++
    (match strokeAsset with
     | .present _ =>
       let availableSpace := 440 - (tokenLogoX + textHeight)
       let strokeX := tokenLogoX + textHeight + availableSpace / 2 - 22 / 2
       let strokeY := 850 + textHeight / 2 - 35 / 2
       [ .image "stroke" strokeX strokeY 22 35,
         .text finalAmountText (if isProfitable then "#00FF00" else "#FF0000")
           "bold 77px Impact" "left" "top" 440 835 ] ++
       evLogo chain tokenLogo (440 + finalAmountWidth + 19) tokenLogoY textHeight
     | .missing =>
       [ .text ">" inColor "bold 77px Impact" "left" "top" 352 835,
         .text finalAmountText (if isProfitable then "#00FF00" else "#FF0000")
           "bold 77px Impact" "left" "top" 440 835 ] ++
       evLogo chain tokenLogo (440 + finalAmountWidth + 19) tokenLogoY textHeight
     | .throws =>
       [ .text ">" inColor "bold 77px Impact" "left" "top" 352 835,
         .text finalAmountText (if isProfitable then "#00FF00" else "#FF0000")
           "bold 77px Impact" "left" "top" 440 835 ] ++
       evLogo chain tokenLogo (448 + finalAmountWidth + 19) tokenLogoY textHeight)
  | .missing =>
    [ .text "≡" inColor "bold 77px Impact" "left" "top" 272 835,
      .text ">" inColor "bold 77px Impact" "left" "top" 352 835,
      .text (toFixed 1 finalAmount) (if isProfitable then "#00FF00" else "#FF0000")
        "bold 77px Impact" "left" "top" 440 835,
      .text "≡" (if isProfitable then "#00FF00" else "#FF0000")
        "bold 77px Impact" "left" "top" 544 835 ]
  | .throws =>
    [ .text "≡" inColor "bold 77px Impact" "left" "top" 272 835,
      .text ">" inColor "bold 77px Impact" "left" "top" 352 835,
      .text (toFixed 1 finalAmount) (if isProfitable then "#00FF00" else "#FF0000")
        "bold 77px Impact" "left" "top" 440 835,
      .text "≡" (if isProfitable then "#00FF00" else "#FF0000")
        "bold 77px Impact" "left" "top" 544 835 ]

/-- Events of the USD equivalents row. -/
def evUsd (initialUsd finalUsd : ℚ) : List Event :=
  [ .text ("$" ++ toLocaleEn2 initialUsd) "#818181" "bold 26px GeistMono" "left" "top" 130 927,
    .text ("$" ++ toLocaleEn2 finalUsd) "#818181" "bold 26px GeistMono" "left" "top" 440 927 ]

theorem interp_append (st : CtxState) (l1 l2 : List Cmd) :
    interp st (l1 ++ l2) = interp st l1 ++ interp (stateAfter st l1) l2 := by
  induction l1 generalizing st with
  | nil => simp [interp, stateAfter]
  | cons c cs ih => simp [interp, stateAfter, ih]

theorem stateAfter_append (st : CtxState) (l1 l2 : List Cmd) :
    stateAfter st (l1 ++ l2) = stateAfter (stateAfter st l1) l2 := by
  induction l1 generalizing st with
  | nil => simp [stateAfter]
  | cons c cs ih => simp [stateAfter, ih]

theorem interp_bgCmds (bg : AssetState) : interp initCtx (bgCmds bg) = evBg bg := by
  cases bg <;> rfl

theorem stateAfter_bgCmds (bg : AssetState) :
    stateAfter initCtx (bgCmds bg) = initCtx := by
  cases bg <;> rfl

theorem interp_headerCmds (t : String) (p : Bool) (u : ℚ) :
    interp initCtx (headerCmds t p u) = evHeader t p u := by
  cases p <;> rfl

theorem stateAfter_headerCmds (st : CtxState) (t : String) (p : Bool) (u : ℚ) :
    stateAfter st (headerCmds t p u) =
      ⟨if p then "#00FF00" else "#FF0000", "#FFFFFF", 5, "bold 152px Impact", "left", "top"⟩ := by
  cases p <;> rfl

theorem interp_percRowCmds (st : CtxState) (pr : ℚ) (c : Chain) (lg : AssetState)
    (ms : String → String → ℚ) :
    interp st (percRowCmds pr c lg ms) = evPerc pr c lg ms := by
  cases lg <;> cases c <;> rfl

theorem stateAfter_percRowCmds (st : CtxState) (pr : ℚ) (c : Chain) (lg : AssetState)
    (ms : String → String → ℚ) :
    stateAfter st (percRowCmds pr c lg ms) =
      { st with fillStyle := "#FFFFFF", font := "bold 74px Impact",
                textAlign := "left", textBaseline := "middle" } := by
  cases lg <;> cases c <;> rfl

theorem interp_investBoxCmds (st : CtxState) : interp st investBoxCmds = evBox := rfl

theorem stateAfter_investBoxCmds (st : CtxState) :
    stateAfter st investBoxCmds =
      { st with fillStyle := "#919191", strokeStyle := "#919191", lineWidth := 5 } := rfl

theorem interp_investLabelCmds (st : CtxState) (roi : ℚ) (ms : String → String → ℚ) :
    interp st (investLabelCmds roi ms) = evLabels roi ms := rfl

theorem stateAfter_investLabelCmds (st : CtxState) (roi : ℚ) (ms : String → String → ℚ) :
    stateAfter st (investLabelCmds roi ms) =
      { st with fillStyle := "#FFFFFF", font := "bold 28px GeistMono",
                textAlign := "left", textBaseline := "top" } := rfl

theorem interp_investBlockCmds (st : CtxState) (ii fa : ℚ) (p : Bool) (c : Chain)
    (lg sk : AssetState) (ms : String → String → ℚ) :
    interp st (investBlockCmds ii fa p c lg sk ms) =
      evInvest st.fillStyle ii fa p c lg sk ms := by
  cases lg <;> cases sk <;> cases c <;> rfl

theorem interp_usdRowCmds (st : CtxState) (a b : ℚ) :
    interp st (usdRowCmds a b) = evUsd a b := rfl

/-- Trace decomposition: the resolved events of a render call are the
concatenation of the per-block event lists. -/
theorem renderEvents_eq (t : String) (ii fa p : ℚ) (c : Chain) (env : AssetEnv)
    (ms : String → String → ℚ) :
    renderEvents t ii fa p c env ms =
      evBg env.background ++
      evHeader t (computeMetrics ii fa p).isProfitable (computeMetrics ii fa p).profitUsd ++
      evPerc (computeMetrics ii fa p).profit c (logoFor c env) ms ++
      evBox ++
      evLabels (computeMetrics ii fa p).roi ms ++
      evInvest "#FFFFFF" ii fa (computeMetrics ii fa p).isProfitable c
        (logoFor c env) env.stroke ms ++
      evUsd (computeMetrics ii fa p).initialUsd (computeMetrics ii fa p).finalUsd := by
  unfold renderEvents generateTradingCard tailCmds
  simp only [interp_append, stateAfter_append, interp_bgCmds, stateAfter_bgCmds,
    interp_headerCmds, stateAfter_headerCmds, interp_percRowCmds, stateAfter_percRowCmds,
    interp_investBoxCmds, stateAfter_investBoxCmds, interp_investLabelCmds,
    stateAfter_investLabelCmds, interp_investBlockCmds, interp_usdRowCmds,
    List.append_assoc]

/-! Distribution of the extractors over appended traces. -/

theorem textEventsAt_append (a b : List Event) (x y : ℚ) :
    textEventsAt (a ++ b) x y = textEventsAt a x y ++ textEventsAt b x y := by
  simp [textEventsAt]

theorem textsAt_append (a b : List Event) (x y : ℚ) :
    textsAt (a ++ b) x y = textsAt a x y ++ textsAt b x y := by
  simp [textsAt, textEventsAt_append]

theorem imageEvents_append (a b : List Event) (n : String) :
    imageEvents (a ++ b) n = imageEvents a n ++ imageEvents b n := by
  simp [imageEvents]

theorem glyphPositions_append (a b : List Event) (g : String) :
    glyphPositions (a ++ b) g = glyphPositions a g ++ glyphPositions b g := by
  simp [glyphPositions]

/-! Per-block extractor facts used across the claims. -/

theorem textEventsAt_evBg (bg : AssetState) (x y : ℚ) :
    textEventsAt (evBg bg) x y = [] := by
  cases bg <;> simp [evBg, textEventsAt]

theorem textEventsAt_evBox (x y : ℚ) : textEventsAt evBox x y = [] := by
  simp [evBox, textEventsAt]

theorem imageEvents_evBg_logo (bg : AssetState) :
    imageEvents (evBg bg) "logo" = [] := by
  cases bg <;> simp [evBg, imageEvents]

theorem imageEvents_evBg_stroke (bg : AssetState) :
    imageEvents (evBg bg) "stroke" = [] := by
  cases bg <;> simp [evBg, imageEvents]

theorem imageEvents_evHeader (t : String) (p : Bool) (u : ℚ) (n : String) :
    imageEvents (evHeader t p u) n = [] := by
  cases p <;> simp [evHeader, imageEvents]

theorem imageEvents_evBox (n : String) : imageEvents evBox n = [] := by
  simp [evBox, imageEvents]

theorem imageEvents_evLabels (roi : ℚ) (ms : String → String → ℚ) (n : String) :
    imageEvents (evLabels roi ms) n = [] := by
  simp [evLabels, imageEvents]

theorem imageEvents_evUsd (a b : ℚ) (n : String) :
    imageEvents (evUsd a b) n = [] := by
  simp [evUsd, imageEvents]

/-! Facts about the formatting models. -/

theorem digitChar_ne_dot (k : ℕ) : digitChar k ≠ '.' := by
  unfold digitChar
  split <;> decide

theorem natToDigitsPadded_ne_dot (d m : ℕ) :
    ∀ c ∈ natToDigitsPadded d m, c ≠ '.' := by
  induction d generalizing m with
  | zero => simp [natToDigitsPadded]
  | succ d ih =>
    intro c hc
    simp only [natToDigitsPadded, List.mem_append, List.mem_singleton] at hc
    rcases hc with h | h
    · exact ih _ c h
    · exact h ▸ digitChar_ne_dot _

theorem natToDigitsPadded_length (d m : ℕ) :
    (natToDigitsPadded d m).length = d := by
  induction d generalizing m with
  | zero => rfl
  | succ d ih => simp [natToDigitsPadded, ih]

theorem takeWhile_append_all {α : Type} (p : α → Bool) (l1 l2 : List α)
    (h : ∀ c ∈ l1, p c) : (l1 ++ l2).takeWhile p = l1 ++ l2.takeWhile p := by
  induction l1 with
  | nil => simp
  | cons a l ih =>
    simp only [List.cons_append, List.takeWhile_cons]
    rw [h a (List.mem_cons_self a l)]
    simp [ih fun c hc => h c (List.mem_cons_of_mem _ hc)]

theorem decPlaces_append_frac (a : String) (digits : List Char)
    (h : ∀ c ∈ digits, c ≠ '.') :
    decPlaces (a ++ ("." ++ String.mk digits)) = digits.length := by
  unfold decPlaces
  rw [String.data_append]
  have hdata : ("." ++ String.mk digits).data = '.' :: digits := rfl
  rw [hdata, List.reverse_append, List.reverse_cons]
  rw [List.append_assoc, List.singleton_append]
  rw [takeWhile_append_all _ _ _ (by
    intro c hc
    simp only [List.mem_reverse] at hc
    simp [h c hc])]
  simp

theorem decPlaces_toFixed (d : ℕ) (hd : 0 < d) (q : ℚ) :
    decPlaces (toFixed d q) = d := by
  have hne : ¬d = 0 := by omega
  show decPlaces
      ((if q < 0 then "-" else "") ++ Nat.repr (jsRound d |q| / 10 ^ d) ++
        (if d = 0 then ""
         else "." ++ String.mk (natToDigitsPadded d (jsRound d |q| % 10 ^ d)))) = d
  rw [if_neg hne, decPlaces_append_frac _ _ (natToDigitsPadded_ne_dot _ _),
    natToDigitsPadded_length]

theorem decPlaces_toLocaleEn2 (q : ℚ) : decPlaces (toLocaleEn2 q) = 2 := by
  unfold toLocaleEn2
  have hassoc :
      (if q < 0 then "-" else "") ++
          String.mk (groupThousands (Nat.repr (jsRound 2 |q| / 100)).data) ++ "." ++
          String.mk (natToDigitsPadded 2 (jsRound 2 |q| % 100)) =
        ((if q < 0 then "-" else "") ++
            String.mk (groupThousands (Nat.repr (jsRound 2 |q| / 100)).data)) ++
          ("." ++ String.mk (natToDigitsPadded 2 (jsRound 2 |q| % 100))) := by
    simp [String.ext_iff, String.data_append]
  rw [hassoc, decPlaces_append_frac _ _ (natToDigitsPadded_ne_dot _ _)]
  exact natToDigitsPadded_length _ _

/-! Sample inputs used by witnesses and counterexamples. -/

/-- A sample asset environment with every asset loading. -/
def sampleEnv : AssetEnv :=
  { background := .present ⟨1600, 1071⟩
    logoSol := .present ⟨50, 50⟩
    logoEth := .present ⟨50, 100⟩
    stroke := .present ⟨22, 35⟩ }

/-- A concrete deterministic text-measure oracle: every string measures ten
pixels wide. -/
def sampleMeasure : String → String → ℚ := fun _ _ => 10

/-! The claims. -/

/-- C1: for every valid TradeInput and positive price, `generateTradingCard`
computes the derived metrics exactly by the spec formulas: profitQuantity =
finalAmount - initialInvestment, initialUsd = initialInvestment * price,
finalUsd = finalAmount * price, profitUsd = finalUsd - initialUsd =
finalAmount * price - initialInvestment * price exactly, and roi =
finalAmount / initialInvestment, with no special-casing and no failure mode
(`computeMetrics` is total). -/
theorem C1_metrics_formulas (ii fa p : ℚ) (_hii : 0 < ii) (_hfa : 0 ≤ fa)
    (_hp : 0 < p) :
    (computeMetrics ii fa p).profit = fa - ii ∧
    (computeMetrics ii fa p).initialUsd = ii * p ∧
    (computeMetrics ii fa p).finalUsd = fa * p ∧
    (computeMetrics ii fa p).profitUsd =
      (computeMetrics ii fa p).finalUsd - (computeMetrics ii fa p).initialUsd ∧
    (computeMetrics ii fa p).profitUsd = fa * p - ii * p ∧
    (computeMetrics ii fa p).roi = fa / ii :=
  ⟨rfl, rfl, rfl, rfl, rfl, rfl⟩

/-- Witness for C1 at the spec example scenario 1 (BONK, 1000 → 2500 at
price 150). -/
theorem C1_metrics_formulas_witness :
    (computeMetrics 1000 2500 150).profit = 2500 - 1000 ∧
    (computeMetrics 1000 2500 150).initialUsd = 1000 * 150 ∧
    (computeMetrics 1000 2500 150).finalUsd = 2500 * 150 ∧
    (computeMetrics 1000 2500 150).profitUsd =
      (computeMetrics 1000 2500 150).finalUsd - (computeMetrics 1000 2500 150).initialUsd ∧
    (computeMetrics 1000 2500 150).profitUsd = 2500 * 150 - 1000 * 150 ∧
    (computeMetrics 1000 2500 150).roi = 2500 / 1000 :=
  C1_metrics_formulas 1000 2500 150 (by norm_num) (by norm_num) (by norm_num)

/-- C2: `isProfitable` is exactly the predicate finalAmount -
initialInvestment >= 0, and in every asset-availability branch the
profit-USD text (anchor (61, 346)) and the finalAmount text (anchor
(440, 835)) are each drawn exactly once, in #00FF00 when `isProfitable`
and #FF0000 otherwise. -/
theorem C2_profit_color_selection (t : String) (ii fa p : ℚ) (chain : Chain)
    (env : AssetEnv) (measure : String → String → ℚ) :
    (computeMetrics ii fa p).isProfitable = decide (fa - ii ≥ 0) ∧
    textEventsAt (renderEvents t ii fa p chain env measure) 61 346 =
      [(((if (computeMetrics ii fa p).isProfitable then "+$" else "-$") ++
          toLocaleEn2 |(computeMetrics ii fa p).profitUsd|),
        if (computeMetrics ii fa p).isProfitable then "#00FF00" else "#FF0000")] ∧
    textEventsAt (renderEvents t ii fa p chain env measure) 440 835 =
      [(toFixed 1 fa,
        if (computeMetrics ii fa p).isProfitable then "#00FF00" else "#FF0000")] := by
  refine ⟨rfl, ?_, ?_⟩ <;>
  · rw [renderEvents_eq]
    simp only [textEventsAt_append, textEventsAt_evBg, textEventsAt_evBox]
    rcases env with ⟨bg, ls, le, sk⟩
    cases chain <;> cases ls <;> cases le <;> cases sk <;>
      simp [evHeader, evPerc, evLabels, evInvest, evUsd, evLogo, logoFor, textEventsAt]

/-- C3 counterexample: the claim that asset failures in steps 6/9/10/11
degrade only the affected sub-element fails on the source.  With the SOL
logo present the invested-amount text is drawn at (130, 835); removing only
the chain-logo asset (an asset of step 9 whose documented fallback is a
placeholder glyph) also removes the invested-amount text, a different
sub-element. -/
theorem C3_counterexample :
    textsAt (renderEvents "BONK" 1000 2500 150 .SOL sampleEnv sampleMeasure) 130 835 =
      [toFixed 1 1000] ∧
    textsAt (renderEvents "BONK" 1000 2500 150 .SOL
      ⟨.present ⟨1600, 1071⟩, .missing, .present ⟨50, 100⟩, .present ⟨22, 35⟩⟩
      sampleMeasure) 130 835 = [] := by
  constructor <;>
  · rw [renderEvents_eq]
    simp only [textsAt, textEventsAt_append, textEventsAt_evBg, textEventsAt_evBox]
    simp [evHeader, evPerc, evLabels, evInvest, evUsd, evLogo, logoFor, sampleEnv,
      textEventsAt]

/-- C3 (amended): for every input and every asset availability the render
returns the fixed 1600 by 1071 dimensions and runs to completion through
the final USD row, and no asset failure aborts it; however, degradation is
not limited to the affected sub-element: the invested-amount text at
(130, 835) is drawn exactly when the chain-logo asset loads, and is
omitted whenever that asset is missing or fails. -/
theorem C3_always_complete_fixed_size (t : String) (ii fa p : ℚ) (chain : Chain)
    (env : AssetEnv) (measure : String → String → ℚ) :
    (generateTradingCard t ii fa p chain env measure).width = 1600 ∧
    (generateTradingCard t ii fa p chain env measure).height = 1071 ∧
    (∃ pre, renderEvents t ii fa p chain env measure =
        pre ++ evUsd (computeMetrics ii fa p).initialUsd (computeMetrics ii fa p).finalUsd) ∧
    textsAt (renderEvents t ii fa p chain env measure) 130 835 =
      (match logoFor chain env with
       | .present _ => [toFixed 1 ii]
       | .missing => []
       | .throws => []) := by
  refine ⟨rfl, rfl, ⟨_, renderEvents_eq t ii fa p chain env measure⟩, ?_⟩
  rw [renderEvents_eq]
  simp only [textsAt, textEventsAt_append, textEventsAt_evBg, textEventsAt_evBox]
  rcases env with ⟨bg, ls, le, sk⟩
  cases chain <;> cases ls <;> cases le <;> cases sk <;>
    simp [evHeader, evPerc, evLabels, evInvest, evUsd, evLogo, logoFor, textEventsAt]

/-- Shift the x-coordinate of the last placement in a list by `d`. -/
def shiftLastX (d : ℚ) : List (ℚ × ℚ × ℚ × ℚ) → List (ℚ × ℚ × ℚ × ℚ)
  | [] => []
  | [(x, y, w, h)] => [(x + d, y, w, h)]
  | e :: rest => e :: shiftLastX d rest

/-- C4 counterexample: a separator-load exception is not equivalent to the
separator file being absent.  At the same concrete input the second
panel logo lands at x = 469 when `stroke.png` does not exist but at
x = 477 when its load throws (src/index.ts line 386 vs line 413), so the
two renders differ. -/
theorem C4_counterexample :
    (imageEvents (renderEvents "BONK" 1000 2500 150 .SOL
        ⟨.present ⟨1600, 1071⟩, .present ⟨50, 50⟩, .present ⟨50, 100⟩, .missing⟩
        sampleMeasure) "logo").map (fun e => e.1) = [149, 159, 469] ∧
    (imageEvents (renderEvents "BONK" 1000 2500 150 .SOL
        ⟨.present ⟨1600, 1071⟩, .present ⟨50, 50⟩, .present ⟨50, 100⟩, .throws⟩
        sampleMeasure) "logo").map (fun e => e.1) = [149, 159, 477] ∧
    imageEvents (renderEvents "BONK" 1000 2500 150 .SOL
        ⟨.present ⟨1600, 1071⟩, .present ⟨50, 50⟩, .present ⟨50, 100⟩, .missing⟩
        sampleMeasure) "logo" ≠
      imageEvents (renderEvents "BONK" 1000 2500 150 .SOL
        ⟨.present ⟨1600, 1071⟩, .present ⟨50, 50⟩, .present ⟨50, 100⟩, .throws⟩
        sampleMeasure) "logo" := by
  have h1 : (imageEvents (renderEvents "BONK" 1000 2500 150 .SOL
      ⟨.present ⟨1600, 1071⟩, .present ⟨50, 50⟩, .present ⟨50, 100⟩, .missing⟩
      sampleMeasure) "logo").map (fun e => e.1) = [149, 159, 469] := by
    rw [renderEvents_eq]
    simp only [imageEvents_append, imageEvents_evHeader, imageEvents_evBox,
      imageEvents_evLabels, imageEvents_evUsd]
    simp [evBg, evPerc, evInvest, evLogo, logoFor, sampleMeasure, imageEvents]
    norm_num
  have h2 : (imageEvents (renderEvents "BONK" 1000 2500 150 .SOL
      ⟨.present ⟨1600, 1071⟩, .present ⟨50, 50⟩, .present ⟨50, 100⟩, .throws⟩
      sampleMeasure) "logo").map (fun e => e.1) = [149, 159, 477] := by
    rw [renderEvents_eq]
    simp only [imageEvents_append, imageEvents_evHeader, imageEvents_evBox,
      imageEvents_evLabels, imageEvents_evUsd]
    simp [evBg, evPerc, evInvest, evLogo, logoFor, sampleMeasure, imageEvents]
    norm_num
  refine ⟨h1, h2, fun h => ?_⟩
  rw [h, h2] at h1
  norm_num at h1

/-- C4 (amended): when the chain logo is present, the render with a
throwing separator load agrees with the render with a missing separator
file on the `>` fallback glyph at (352, 835) and on the finalAmount text
at (440, 835), but the second panel logo is drawn 8 pixels further right
(base coordinate 448 instead of 440, src/index.ts line 413). -/
theorem C4_throw_vs_missing (t : String) (ii fa p : ℚ) (chain : Chain)
    (bg ls le : AssetState) (measure : String → String → ℚ) (bmp : Bitmap)
    (h : logoFor chain ⟨bg, ls, le, .missing⟩ = .present bmp) :
    textsAt (renderEvents t ii fa p chain ⟨bg, ls, le, .missing⟩ measure) 352 835 =
      [">"] ∧
    textsAt (renderEvents t ii fa p chain ⟨bg, ls, le, .throws⟩ measure) 352 835 =
      [">"] ∧
    textsAt (renderEvents t ii fa p chain ⟨bg, ls, le, .missing⟩ measure) 440 835 =
      [toFixed 1 fa] ∧
    textsAt (renderEvents t ii fa p chain ⟨bg, ls, le, .throws⟩ measure) 440 835 =
      [toFixed 1 fa] ∧
    imageEvents (renderEvents t ii fa p chain ⟨bg, ls, le, .throws⟩ measure) "logo" =
      shiftLastX 8
        (imageEvents (renderEvents t ii fa p chain ⟨bg, ls, le, .missing⟩ measure) "logo") := by
  cases chain <;> simp only [logoFor] at h <;> subst h <;>
    refine ⟨?_, ?_, ?_, ?_, ?_⟩ <;>
    · rw [renderEvents_eq]
      try rw [renderEvents_eq]
      simp only [textsAt, textEventsAt_append, textEventsAt_evBg, textEventsAt_evBox,
        imageEvents_append, imageEvents_evBg_logo, imageEvents_evHeader,
        imageEvents_evBox, imageEvents_evLabels, imageEvents_evUsd]
      simp [evHeader, evPerc, evInvest, evLogo, evLabels, evUsd, logoFor,
        textEventsAt, imageEvents, shiftLastX]
      try ring_nf

/-- Witness for C4 (amended) with every asset present except the separator,
SOL chain. -/
theorem C4_throw_vs_missing_witness :
    textsAt (renderEvents "BONK" 1000 2500 150 .SOL
      ⟨.present ⟨1600, 1071⟩, .present ⟨50, 50⟩, .present ⟨50, 100⟩, .missing⟩
      sampleMeasure) 352 835 = [">"] ∧
    textsAt (renderEvents "BONK" 1000 2500 150 .SOL
      ⟨.present ⟨1600, 1071⟩, .present ⟨50, 50⟩, .present ⟨50, 100⟩, .throws⟩
      sampleMeasure) 352 835 = [">"] ∧
    textsAt (renderEvents "BONK" 1000 2500 150 .SOL
      ⟨.present ⟨1600, 1071⟩, .present ⟨50, 50⟩, .present ⟨50, 100⟩, .missing⟩
      sampleMeasure) 440 835 = [toFixed 1 2500] ∧
    textsAt (renderEvents "BONK" 1000 2500 150 .SOL
      ⟨.present ⟨1600, 1071⟩, .present ⟨50, 50⟩, .present ⟨50, 100⟩, .throws⟩
      sampleMeasure) 440 835 = [toFixed 1 2500] ∧
    imageEvents (renderEvents "BONK" 1000 2500 150 .SOL
      ⟨.present ⟨1600, 1071⟩, .present ⟨50, 50⟩, .present ⟨50, 100⟩, .throws⟩
      sampleMeasure) "logo" =
      shiftLastX 8
        (imageEvents (renderEvents "BONK" 1000 2500 150 .SOL
          ⟨.present ⟨1600, 1071⟩, .present ⟨50, 50⟩, .present ⟨50, 100⟩, .missing⟩
          sampleMeasure) "logo") :=
  C4_throw_vs_missing "BONK" 1000 2500 150 .SOL (.present ⟨1600, 1071⟩)
    (.present ⟨50, 50⟩) (.present ⟨50, 100⟩) sampleMeasure ⟨50, 50⟩ rfl

/-- C5 counterexample: whether the separator is rendered as a bitmap does
not depend only on the separator asset.  With `stroke.png` loadable in
both environments, the separator bitmap is drawn when the chain logo is
present and is replaced by the `>` glyph when only the chain logo is
removed. -/
theorem C5_counterexample :
    imageEvents (renderEvents "BONK" 1000 2500 150 .SOL sampleEnv sampleMeasure)
      "stroke" = [(317.375, 861.375, 22, 35)] ∧
    imageEvents (renderEvents "BONK" 1000 2500 150 .SOL
      ⟨.present ⟨1600, 1071⟩, .missing, .present ⟨50, 100⟩, .present ⟨22, 35⟩⟩
      sampleMeasure) "stroke" = [] ∧
    textsAt (renderEvents "BONK" 1000 2500 150 .SOL
      ⟨.present ⟨1600, 1071⟩, .missing, .present ⟨50, 100⟩, .present ⟨22, 35⟩⟩
      sampleMeasure) 352 835 = [">"] := by
  refine ⟨?_, ?_, ?_⟩ <;>
  · rw [renderEvents_eq]
    simp only [textsAt, textEventsAt_append, textEventsAt_evBg, textEventsAt_evBox,
      imageEvents_append, imageEvents_evHeader, imageEvents_evBox,
      imageEvents_evLabels, imageEvents_evUsd]
    simp [evBg, evHeader, evPerc, evInvest, evLogo, evLabels, evUsd, logoFor,
      sampleEnv, sampleMeasure, textEventsAt, imageEvents]
    try norm_num

/-- C5 (amended): the background degrades independently (the rest of the
script does not depend on it), but the separator slot depends on both the
separator and the chain logo: the separator bitmap is drawn exactly when
both load, and in every other combination the `>` glyph is drawn at
(352, 835). -/
theorem C5_fallback_dependence (t : String) (ii fa p : ℚ) (chain : Chain)
    (env : AssetEnv) (measure : String → String → ℚ) :
    renderEvents t ii fa p chain env measure =
      interp initCtx (bgCmds env.background) ++
        interp initCtx
          (tailCmds t ii fa p chain (logoFor chain env) env.stroke measure) ∧
    (imageEvents (renderEvents t ii fa p chain env measure) "stroke").length =
      (match logoFor chain env, env.stroke with
       | .present _, .present _ => 1
       | _, _ => 0) ∧
    textsAt (renderEvents t ii fa p chain env measure) 352 835 =
      (match logoFor chain env, env.stroke with
       | .present _, .present _ => []
       | _, _ => [">"]) := by
  refine ⟨?_, ?_, ?_⟩
  · simp only [renderEvents, generateTradingCard]
    rw [interp_append, stateAfter_bgCmds]
  all_goals
    rw [renderEvents_eq]
    simp only [textsAt, textEventsAt_append, textEventsAt_evBg, textEventsAt_evBox,
      imageEvents_append, imageEvents_evBg_logo, imageEvents_evBg_stroke,
      imageEvents_evHeader, imageEvents_evBox, imageEvents_evLabels, imageEvents_evUsd]
    rcases env with ⟨bg, ls, le, sk⟩
    cases chain <;> cases ls <;> cases le <;> cases sk <;>
      simp [evHeader, evPerc, evInvest, evLogo, evLabels, evUsd, logoFor,
        textEventsAt, imageEvents]

/-- C9: rendering is deterministic: two calls of `generateTradingCard` on
identical ticker, amounts, price, chain, asset environment and text-metric
oracle produce identical results. -/
theorem C9_deterministic (t : String) (ii fa p : ℚ) (chain : Chain)
    (env : AssetEnv) (measure : String → String → ℚ) (out1 out2 : RenderResult)
    (h1 : out1 = generateTradingCard t ii fa p chain env measure)
    (h2 : out2 = generateTradingCard t ii fa p chain env measure) :
    out1 = out2 :=
  h1.trans h2.symm

/-- Witness for C9 at the spec example scenario 1. -/
theorem C9_deterministic_witness :
    generateTradingCard "BONK" 1000 2500 150 .SOL sampleEnv sampleMeasure =
      generateTradingCard "BONK" 1000 2500 150 .SOL sampleEnv sampleMeasure :=
  C9_deterministic "BONK" 1000 2500 150 .SOL sampleEnv sampleMeasure _ _ rfl rfl

/-- C6: the logo sizing policy differs by chain and is applied identically
in all three logo slots: ETH logos are drawn 39 wide with
aspect-ratio-preserved height 39 * (height/width); SOL logos are drawn as
squares whose side is the slot's text line height, fontSize * 0.75 (74 *
0.75 in the profit-quantity row, 77 * 0.75 in both investment-panel
slots). -/
theorem C6_logo_sizing_policy (t : String) (ii fa p : ℚ) (chain : Chain)
    (bg ls le sk : AssetState) (measure : String → String → ℚ) (bmp : Bitmap)
    (h : logoFor chain ⟨bg, ls, le, sk⟩ = .present bmp) :
    (imageEvents (renderEvents t ii fa p chain ⟨bg, ls, le, sk⟩ measure) "logo").map
        (fun e => (e.2.2.1, e.2.2.2)) =
      (match chain with
       | .ETH =>
         [(39, 39 * (bmp.height / bmp.width)), (39, 39 * (bmp.height / bmp.width)),
          (39, 39 * (bmp.height / bmp.width))]
       | .SOL =>
         [(74 * 0.75, 74 * 0.75), (77 * 0.75, 77 * 0.75), (77 * 0.75, 77 * 0.75)]) := by
  cases chain <;> simp only [logoFor] at h <;> subst h <;>
  · rw [renderEvents_eq]
    simp only [imageEvents_append, imageEvents_evBg_logo, imageEvents_evHeader,
      imageEvents_evBox, imageEvents_evLabels, imageEvents_evUsd]
    cases sk <;> simp [evPerc, evInvest, evLogo, logoFor, imageEvents]

/-- Witness for C6: SOL chain with a square 50 by 50 logo bitmap. -/
theorem C6_logo_sizing_policy_witness :
    (imageEvents (renderEvents "BONK" 1000 2500 150 .SOL
        ⟨.present ⟨1600, 1071⟩, .present ⟨50, 50⟩, .present ⟨50, 100⟩, .present ⟨22, 35⟩⟩
        sampleMeasure) "logo").map (fun e => (e.2.2.1, e.2.2.2)) =
      [(74 * 0.75, 74 * 0.75), (77 * 0.75, 77 * 0.75), (77 * 0.75, 77 * 0.75)] :=
  C6_logo_sizing_policy "BONK" 1000 2500 150 .SOL (.present ⟨1600, 1071⟩)
    (.present ⟨50, 50⟩) (.present ⟨50, 100⟩) (.present ⟨22, 35⟩) sampleMeasure
    ⟨50, 50⟩ rfl

/-- C7 counterexample: for ETH the separator is not centered in the gap
between the invested-logo's right edge and x = 440.  At this input the
invested ETH logo is drawn 39 wide at x = 159 (right edge 198), the
separator bitmap is drawn at x = 317.375 (center 328.375), and the
midpoint of the claimed gap [198, 440] is 319, not 328.375. -/
theorem C7_counterexample :
    imageEvents (renderEvents "TRUMP" 1000 500 3500 .ETH sampleEnv sampleMeasure)
      "stroke" = [(317.375, 861.375, 22, 35)] ∧
    (imageEvents (renderEvents "TRUMP" 1000 500 3500 .ETH sampleEnv sampleMeasure)
        "logo").map (fun e => (e.1, e.2.2.1)) = [(149, 39), (159, 39), (469, 39)] ∧
    ¬((317.375 : ℚ) + 22 / 2 = ((159 + 39) + 440) / 2) := by
  refine ⟨?_, ?_, by norm_num⟩ <;>
  · rw [renderEvents_eq]
    simp only [imageEvents_append, imageEvents_evBg_logo, imageEvents_evBg_stroke,
      imageEvents_evHeader, imageEvents_evBox, imageEvents_evLabels, imageEvents_evUsd]
    simp [evPerc, evInvest, evLogo, logoFor, sampleEnv, sampleMeasure, imageEvents]
    try norm_num

/-- C7 (amended): when the chain logo is present, the separator bitmap — if
its asset loads — is centered in the gap between
x = logoX + 77 * 0.75 and the fixed mid-panel coordinate 440 (the gap
start is the drawn invested-logo's right edge for SOL, whereas for ETH the
logo is only 39 wide, so the gap is not measured from the logo's right
edge); when the separator asset is missing or fails to load, a plain `>`
glyph is drawn at the fixed coordinate (352, 835) with no gap-centering
computation. -/
theorem C7_separator_placement (t : String) (ii fa p : ℚ) (chain : Chain)
    (bg ls le sk : AssetState) (measure : String → String → ℚ) (bmp : Bitmap)
    (h : logoFor chain ⟨bg, ls, le, sk⟩ = .present bmp) :
    imageEvents (renderEvents t ii fa p chain ⟨bg, ls, le, sk⟩ measure) "stroke" =
      (match sk with
       | .present _ =>
         [(130 + measure "bold 77px Impact" (toFixed 1 ii) + 19 + 77 * 0.75 +
             (440 - (130 + measure "bold 77px Impact" (toFixed 1 ii) + 19 + 77 * 0.75)) / 2 -
             22 / 2,
           850 + 77 * 0.75 / 2 - 35 / 2, 22, 35)]
       | .missing => []
       | .throws => []) ∧
    textsAt (renderEvents t ii fa p chain ⟨bg, ls, le, sk⟩ measure) 352 835 =
      (match sk with
       | .present _ => []
       | .missing => [">"]
       | .throws => [">"]) := by
  cases chain <;> simp only [logoFor] at h <;> subst h <;>
  · constructor <;>
    · rw [renderEvents_eq]
      simp only [textsAt, textEventsAt_append, textEventsAt_evBg, textEventsAt_evBox,
        imageEvents_append, imageEvents_evBg_logo, imageEvents_evBg_stroke,
        imageEvents_evHeader, imageEvents_evBox, imageEvents_evLabels, imageEvents_evUsd]
      cases sk <;>
        simp [evPerc, evInvest, evLogo, evHeader, evLabels, evUsd, logoFor,
          textEventsAt, imageEvents]

/-- Witness for C7 (amended): SOL chain, all assets present. -/
theorem C7_separator_placement_witness :
    imageEvents (renderEvents "BONK" 1000 2500 150 .SOL
      ⟨.present ⟨1600, 1071⟩, .present ⟨50, 50⟩, .present ⟨50, 100⟩, .present ⟨22, 35⟩⟩
      sampleMeasure) "stroke" =
      [(130 + sampleMeasure "bold 77px Impact" (toFixed 1 1000) + 19 + 77 * 0.75 +
          (440 - (130 + sampleMeasure "bold 77px Impact" (toFixed 1 1000) + 19 + 77 * 0.75)) / 2 -
          22 / 2,
        850 + 77 * 0.75 / 2 - 35 / 2, 22, 35)] ∧
    textsAt (renderEvents "BONK" 1000 2500 150 .SOL
      ⟨.present ⟨1600, 1071⟩, .present ⟨50, 50⟩, .present ⟨50, 100⟩, .present ⟨22, 35⟩⟩
      sampleMeasure) 352 835 = [] :=
  C7_separator_placement "BONK" 1000 2500 150 .SOL (.present ⟨1600, 1071⟩)
    (.present ⟨50, 50⟩) (.present ⟨50, 100⟩) (.present ⟨22, 35⟩) sampleMeasure
    ⟨50, 50⟩ rfl

/-- Helper: the concatenated sign-and-dollar prefix of the profit USD line
splits into the sign glyph followed by the dollar prefix. -/
theorem signGlyph_append (p : Bool) (s : String) :
    (if p then "+$" else "-$") ++ s = (if p then "+" else "-") ++ "$" ++ s := by
  cases p <;> rfl

/-! Per-anchor text extraction from each block. -/

theorem textEventsAt_evHeader_profit (t : String) (p : Bool) (u : ℚ) :
    textEventsAt (evHeader t p u) 61 346 =
      [((if p then "+$" else "-$") ++ toLocaleEn2 |u|,
        if p then "#00FF00" else "#FF0000")] := by
  simp [evHeader, textEventsAt]

theorem textEventsAt_evHeader_ne (t : String) (p : Bool) (u : ℚ) (x y : ℚ)
    (h1 : ¬y = 937) (h2 : ¬y = 63) (h3 : ¬y = 299) (h4 : ¬y = 346) :
    textEventsAt (evHeader t p u) x y = [] := by
  simp [evHeader, textEventsAt, h1, h2, h3, h4, Ne.symm h1, Ne.symm h2,
    Ne.symm h3, Ne.symm h4]

theorem textEventsAt_evPerc_qty (pr : ℚ) (c : Chain) (lg : AssetState)
    (ms : String → String → ℚ) :
    textEventsAt (evPerc pr c lg ms) 119 577 = [(toFixed 3 pr, "#FFFFFF")] := by
  cases lg <;> cases c <;> simp [evPerc, evLogo, textEventsAt]

theorem textEventsAt_evPerc_ne (pr : ℚ) (c : Chain) (lg : AssetState)
    (ms : String → String → ℚ) (x y : ℚ) (h : ¬y = 577) :
    textEventsAt (evPerc pr c lg ms) x y = [] := by
  cases lg <;> cases c <;> simp [evPerc, evLogo, textEventsAt, h, Ne.symm h]

theorem textEventsAt_evLabels_sold (r : ℚ) (ms : String → String → ℚ)
    (hw : ¬ms "28px GeistMono" ("SOLD " ++ toFixed 2 r) = 0) :
    textEventsAt (evLabels r ms) 440 780 =
      [("SOLD " ++ toFixed 2 r, "#FFFFFF")] := by
  simp [evLabels, textEventsAt, add_right_eq_self, hw]

theorem textEventsAt_evLabels_ne (r : ℚ) (ms : String → String → ℚ) (x y : ℚ)
    (h : ¬y = 780) : textEventsAt (evLabels r ms) x y = [] := by
  simp [evLabels, textEventsAt, h, Ne.symm h]

theorem textEventsAt_evInvest_final (ic : String) (ii fa : ℚ) (pb : Bool)
    (c : Chain) (lg sk : AssetState) (ms : String → String → ℚ) :
    textEventsAt (evInvest ic ii fa pb c lg sk ms) 440 835 =
      [(toFixed 1 fa, if pb then "#00FF00" else "#FF0000")] := by
  cases lg <;> cases sk <;> cases c <;> simp [evInvest, evLogo, textEventsAt]

theorem textEventsAt_evInvest_invested (ic : String) (ii fa : ℚ) (pb : Bool)
    (c : Chain) (lg sk : AssetState) (ms : String → String → ℚ) :
    textEventsAt (evInvest ic ii fa pb c lg sk ms) 130 835 =
      (match lg with
       | .present _ => [(toFixed 1 ii, ic)]
       | .missing => []
       | .throws => []) := by
  cases lg <;> cases sk <;> cases c <;> simp [evInvest, evLogo, textEventsAt]

theorem textEventsAt_evInvest_ne (ic : String) (ii fa : ℚ) (pb : Bool)
    (c : Chain) (lg sk : AssetState) (ms : String → String → ℚ) (x y : ℚ)
    (h : ¬y = 835) :
    textEventsAt (evInvest ic ii fa pb c lg sk ms) x y = [] := by
  cases lg <;> cases sk <;> cases c <;>
    simp [evInvest, evLogo, textEventsAt, h, Ne.symm h]

theorem textEventsAt_evUsd_init (a b : ℚ) :
    textEventsAt (evUsd a b) 130 927 = [("$" ++ toLocaleEn2 a, "#818181")] := by
  simp [evUsd, textEventsAt]

theorem textEventsAt_evUsd_final (a b : ℚ) :
    textEventsAt (evUsd a b) 440 927 = [("$" ++ toLocaleEn2 b, "#818181")] := by
  simp [evUsd, textEventsAt]

theorem textEventsAt_evUsd_ne (a b : ℚ) (x y : ℚ) (h : ¬y = 927) :
    textEventsAt (evUsd a b) x y = [] := by
  simp [evUsd, textEventsAt, h, Ne.symm h]

/-- C8: the displayed strings follow the formatting contract: the profit
USD line is a sign glyph chosen by `isProfitable`, a `$` prefix and the
absolute profit USD formatted by the en-US locale model (thousands
grouping); the profit quantity uses `toFixed 3`, invested and final
amounts use `toFixed 1` (the invested amount only when the chain logo
loads), roi uses `toFixed 2`, the USD row uses the locale model; and the
formatters are total functions producing exactly 2, 3, 1 and 2 fractional
digits respectively. -/
theorem C8_formatting (t : String) (ii fa p : ℚ) (chain : Chain)
    (env : AssetEnv) (measure : String → String → ℚ)
    (hm : ∀ f s, 0 < measure f s) :
    textsAt (renderEvents t ii fa p chain env measure) 61 346 =
      [(if (computeMetrics ii fa p).isProfitable then "+" else "-") ++ "$" ++
        toLocaleEn2 |(computeMetrics ii fa p).profitUsd|] ∧
    textsAt (renderEvents t ii fa p chain env measure) 119 577 =
      [toFixed 3 (computeMetrics ii fa p).profit] ∧
    textsAt (renderEvents t ii fa p chain env measure) 440 780 =
      ["SOLD " ++ toFixed 2 (computeMetrics ii fa p).roi] ∧
    textsAt (renderEvents t ii fa p chain env measure) 130 835 =
      (match logoFor chain env with
       | .present _ => [toFixed 1 ii]
       | .missing => []
       | .throws => []) ∧
    textsAt (renderEvents t ii fa p chain env measure) 440 835 = [toFixed 1 fa] ∧
    textsAt (renderEvents t ii fa p chain env measure) 130 927 =
      ["$" ++ toLocaleEn2 (computeMetrics ii fa p).initialUsd] ∧
    textsAt (renderEvents t ii fa p chain env measure) 440 927 =
      ["$" ++ toLocaleEn2 (computeMetrics ii fa p).finalUsd] ∧
    (∀ q : ℚ, decPlaces (toLocaleEn2 q) = 2) ∧
    (∀ q : ℚ, decPlaces (toFixed 3 q) = 3) ∧
    (∀ q : ℚ, decPlaces (toFixed 1 q) = 1) ∧
    (∀ q : ℚ, decPlaces (toFixed 2 q) = 2) := by
  refine ⟨?_, ?_, ?_, ?_, ?_, ?_, ?_, decPlaces_toLocaleEn2,
    fun q => decPlaces_toFixed 3 (by norm_num) q,
    fun q => decPlaces_toFixed 1 (by norm_num) q,
    fun q => decPlaces_toFixed 2 (by norm_num) q⟩ <;>
    rw [renderEvents_eq] <;>
    simp only [textsAt, textEventsAt_append, textEventsAt_evBg, textEventsAt_evBox,
      List.map_append]
  · simp [textEventsAt_evHeader_profit, textEventsAt_evPerc_ne,
      textEventsAt_evLabels_ne, textEventsAt_evInvest_ne, textEventsAt_evUsd_ne,
      signGlyph_append]
  · simp [textEventsAt_evHeader_ne, textEventsAt_evPerc_qty,
      textEventsAt_evLabels_ne, textEventsAt_evInvest_ne, textEventsAt_evUsd_ne]
  · rw [textEventsAt_evLabels_sold _ _ (hm _ _).ne']
    simp [textEventsAt_evHeader_ne, textEventsAt_evPerc_ne,
      textEventsAt_evInvest_ne, textEventsAt_evUsd_ne]
  · rw [textEventsAt_evInvest_invested]
    cases logoFor chain env <;>
      simp [textEventsAt_evHeader_ne, textEventsAt_evPerc_ne,
        textEventsAt_evLabels_ne, textEventsAt_evUsd_ne]
  · simp [textEventsAt_evHeader_ne, textEventsAt_evPerc_ne,
      textEventsAt_evLabels_ne, textEventsAt_evInvest_final, textEventsAt_evUsd_ne]
  · simp [textEventsAt_evHeader_ne, textEventsAt_evPerc_ne,
      textEventsAt_evLabels_ne, textEventsAt_evInvest_ne, textEventsAt_evUsd_init]
  · simp [textEventsAt_evHeader_ne, textEventsAt_evPerc_ne,
      textEventsAt_evLabels_ne, textEventsAt_evInvest_ne, textEventsAt_evUsd_final]

/-- Witness for C8 at the spec example scenario 1 with the positive sample
measure oracle, projected to the SOLD-label conjunct. -/
theorem C8_formatting_witness :
    textsAt (renderEvents "BONK" 1000 2500 150 .SOL sampleEnv sampleMeasure) 440 780 =
      ["SOLD " ++ toFixed 2 (computeMetrics 1000 2500 150).roi] :=
  (C8_formatting "BONK" 1000 2500 150 .SOL sampleEnv sampleMeasure
    (fun f s => by norm_num [sampleMeasure])).2.2.1

/-- C10: when the chain logo file does not exist, the profit-quantity row
issues exactly its five text commands and nothing at the logo position (no
placeholder, no image), while the investment panel draws a placeholder
glyph at (272, 835) and at (544, 835); moreover no logo bitmap is drawn
anywhere on the card. -/
theorem C10_logo_missing_fallbacks (t : String) (ii fa p : ℚ) (chain : Chain)
    (env : AssetEnv) (measure : String → String → ℚ)
    (h : logoFor chain env = .missing) :
    percRowCmds (computeMetrics ii fa p).profit chain (logoFor chain env) measure =
      [ .setFillStyle "#FFFFFF", .setFont "bold 74px Impact", .setTextAlign "left",
        .setTextBaseline "middle",
        .fillText (toFixed 3 (computeMetrics ii fa p).profit) 119 577 ] ∧
    textsAt (renderEvents t ii fa p chain env measure) 272 835 = ["≡"] ∧
    textsAt (renderEvents t ii fa p chain env measure) 544 835 = ["≡"] ∧
    imageEvents (renderEvents t ii fa p chain env measure) "logo" = [] := by
  refine ⟨by rw [h]; simp [percRowCmds], ?_, ?_, ?_⟩ <;>
  · rw [renderEvents_eq, h]
    rcases env with ⟨bg, ls, le, sk⟩
    cases bg <;> cases sk <;>
      simp [evBg, evHeader, evPerc, evBox, evLabels, evInvest, evUsd, logoFor,
        textsAt, textEventsAt, imageEvents, textEventsAt_append, textsAt_append,
        imageEvents_append]

/-- Witness for C10: SOL chain with the SOL logo file absent. -/
theorem C10_logo_missing_fallbacks_witness :
    percRowCmds (computeMetrics 1000 2500 150).profit .SOL
      (logoFor .SOL ⟨.present ⟨1600, 1071⟩, .missing, .present ⟨50, 100⟩, .present ⟨22, 35⟩⟩)
      sampleMeasure =
      [ .setFillStyle "#FFFFFF", .setFont "bold 74px Impact", .setTextAlign "left",
        .setTextBaseline "middle",
        .fillText (toFixed 3 (computeMetrics 1000 2500 150).profit) 119 577 ] ∧
    textsAt (renderEvents "BONK" 1000 2500 150 .SOL
      ⟨.present ⟨1600, 1071⟩, .missing, .present ⟨50, 100⟩, .present ⟨22, 35⟩⟩
      sampleMeasure) 272 835 = ["≡"] ∧
    textsAt (renderEvents "BONK" 1000 2500 150 .SOL
      ⟨.present ⟨1600, 1071⟩, .missing, .present ⟨50, 100⟩, .present ⟨22, 35⟩⟩
      sampleMeasure) 544 835 = ["≡"] ∧
    imageEvents (renderEvents "BONK" 1000 2500 150 .SOL
      ⟨.present ⟨1600, 1071⟩, .missing, .present ⟨50, 100⟩, .present ⟨22, 35⟩⟩
      sampleMeasure) "logo" = [] :=
  C10_logo_missing_fallbacks "BONK" 1000 2500 150 .SOL
    ⟨.present ⟨1600, 1071⟩, .missing, .present ⟨50, 100⟩, .present ⟨22, 35⟩⟩
    sampleMeasure rfl

end Mugshot
